import Mathlib

/-
  Shallow embedding of src/bluetooth/BluetoothHci.cpp
  (android_device_brcm_rpi4, Bluetooth HCI HAL for the Raspberry Pi 4).

  The C++ class BluetoothHci owns a session state machine (HalState):
  READY -> INITIALIZING -> ONE_CLIENT -> CLOSING -> READY, a codec pointer
  mH4, a device descriptor mFd obtained from NetBluetoothMgmt::openHci,
  a client callback mCb, and a BluetoothDeathRecipient whose mCb / has_died_
  fields track the liveness registration.

  Each public operation is embedded as a pure function from the mutable
  object state (Hci) plus the environment inputs consumed inside the call
  (callback pointer, openHci result, binder link result, callback-delivery
  result) to a Step: the binder return value, the state after the call, the
  ordered list of externally visible side effects, and whether a
  LOG_ALWAYS_FATAL fired (which aborts the process).  Transient states held
  only inside one call under mStateMutex (INITIALIZING, CLOSING) collapse
  to the state visible at the end of the call; fatal aborts keep the state
  at the point of the abort.
-/

namespace RpiBluetooth

/-- HalState from BluetoothHci.h, as used in BluetoothHci.cpp:
READY (idle), INITIALIZING, ONE_CLIENT (active), CLOSING. -/
inductive HalState
  | READY
  | INITIALIZING
  | ONE_CLIENT
  | CLOSING
deriving DecidableEq, Repr

/-- aidl::android::hardware::bluetooth::Status values passed to
IBluetoothHciCallbacks::initializationComplete in BluetoothHci.cpp. -/
inductive Status
  | SUCCESS
  | ALREADY_INITIALIZED
  | UNABLE_TO_OPEN_INTERFACE
deriving DecidableEq, Repr

/-- H4 packet kinds (PacketType): COMMAND, ACL_DATA, SCO_DATA, ISO_DATA
are sent by the four send entry points; EVENT additionally arrives inbound. -/
inductive PacketType
  | COMMAND
  | ACL_DATA
  | SCO_DATA
  | ISO_DATA
  | EVENT
deriving DecidableEq, Repr

/-- Binder service-specific error codes used in BluetoothHci.cpp. -/
inductive ErrorCode
  | STATUS_BAD_VALUE
  | STATUS_FAILED_TRANSACTION
deriving DecidableEq, Repr

/-- Binder exception codes used in BluetoothHci::send. -/
inductive ExceptionCode
  | EX_ILLEGAL_ARGUMENT
  | EX_ILLEGAL_STATE
deriving DecidableEq, Repr

/-- ndk::ScopedAStatus results produced by BluetoothHci.cpp. -/
inductive AStatus
  | ok
  | fromServiceSpecificError (c : ErrorCode)
  | fromExceptionCode (c : ExceptionCode)
deriving DecidableEq, Repr

/-- Externally visible side effects of one call, in program order. -/
inductive Effect
  | log (msg : String)
  | logError (msg : String)
  | initializationComplete (s : Status)
  | openHciCall
  | linkToDeath (cb : Nat)
  | watchFd (fd : Int)
  | stopWatching
  | closeHciCall
  | h4Send (t : PacketType) (v : List Nat)
  | clientCallback (t : PacketType) (v : List Nat)
deriving DecidableEq, Repr

/-- The mutable state of one BluetoothHci object together with its
BluetoothDeathRecipient.  mH4 is the codec presence (mH4 != nullptr),
deviceOpen tracks whether the descriptor returned by openHci is open
(closed again by management_->closeHci()), recipientCb is the death
recipient's mCb set by LinkToDeath, hasDied is its has_died_ flag. -/
structure Hci where
  mState : HalState
  mH4 : Bool
  mFd : Int
  mCb : Option Nat
  managementPresent : Bool
  deviceOpen : Bool
  recipientCb : Option Nat
  hasDied : Bool
deriving DecidableEq, Repr

/-- Freshly constructed BluetoothHci: no client, no codec, no device. -/
def initialHci : Hci :=
  { mState := HalState.READY
  , mH4 := false
  , mFd := -1
  , mCb := none
  , managementPresent := false
  , deviceOpen := false
  , recipientCb := none
  , hasDied := false }

/-- Result of one call: binder status, post-state, ordered effects, and
whether a LOG_ALWAYS_FATAL fired (result is meaningless when fatal). -/
structure Step where
  fatal : Bool
  result : AStatus
  st : Hci
  effects : List Effect
deriving DecidableEq, Repr

/-- BluetoothHci::close (BluetoothHci.cpp lines 166-189).  If mState is not
ONE_CLIENT: LOG_ALWAYS_FATAL_IF(mState == INITIALIZING), otherwise log
"Already closed" and return ok with no state change.  Otherwise set CLOSING,
stop watching the descriptor, management_->closeHci(), then set READY and
drop mH4.  The transient CLOSING is only held inside this call. -/
def hciClose (h : Hci) : Step :=
  if h.mState ≠ HalState.ONE_CLIENT then
    if h.mState = HalState.INITIALIZING then
      { fatal := true, result := AStatus.ok, st := h, effects := [] }
    else
      { fatal := false, result := AStatus.ok, st := h
      , effects := [Effect.log "Already closed"] }
  else
    { fatal := false, result := AStatus.ok
    , st := { h with mState := HalState.READY, mH4 := false, deviceOpen := false }
    , effects := [Effect.stopWatching, Effect.closeHciCall] }

/-- Environment inputs consumed during one BluetoothHci call to the
session-start entry point: the callback pointer (none = nullptr), the fd
returned by management_->openHci(), whether AIBinder_linkToDeath returned
STATUS_OK, and whether cb->initializationComplete(SUCCESS) was delivered
(status.isOk()). -/
structure InitEnv where
  cb : Option Nat
  openResult : Int
  linkOk : Bool
  deliverOk : Bool
deriving DecidableEq, Repr

/-- BluetoothHci session start (BluetoothHci.cpp lines 84-164, the
`initialize` method).  Null callback: STATUS_BAD_VALUE, no state change.
Non-READY state: best-effort close(), then initializationComplete
(ALREADY_INITIALIZED), return ok.  READY: set INITIALIZING, openHci; on
failure drop management_, back to READY, initializationComplete
(UNABLE_TO_OPEN_INTERFACE), ok.  On success LinkToDeath (fatal if the link
fails), build mH4, watch the fd, set ONE_CLIENT, initializationComplete
(SUCCESS); if that delivery fails, log the anomaly unless has_died_ is
already set, close(), and return STATUS_FAILED_TRANSACTION. -/
def hciInit (h : Hci) (env : InitEnv) : Step :=
  match env.cb with
  | none =>
      { fatal := false
      , result := AStatus.fromServiceSpecificError ErrorCode.STATUS_BAD_VALUE
      , st := h
      , effects := [Effect.logError "cb == nullptr! -> Unable to call initializationComplete(ERR)"] }
  | some cb =>
      if h.mState ≠ HalState.READY then
        let c := hciClose h
        if c.fatal then
          { c with effects := Effect.logError "Unexpected State" :: c.effects }
        else
          { fatal := false, result := AStatus.ok, st := c.st
          , effects := Effect.logError "Unexpected State" :: c.effects
              ++ [Effect.initializationComplete Status.ALREADY_INITIALIZED] }
      else
        let h1 := { h with mState := HalState.INITIALIZING
                         , mCb := some cb
                         , managementPresent := true
                         , mFd := env.openResult }
        if env.openResult < 0 then
          { fatal := false, result := AStatus.ok
          , st := { h1 with managementPresent := false, mState := HalState.READY }
          , effects := [Effect.openHciCall
                       , Effect.log "Unable to open Linux interface."
                       , Effect.initializationComplete Status.UNABLE_TO_OPEN_INTERFACE] }
        else if env.linkOk = false then
          { fatal := true, result := AStatus.ok
          , st := { h1 with deviceOpen := true }
          , effects := [Effect.openHciCall] }
        else
          let h2 := { h1 with deviceOpen := true
                            , recipientCb := some cb
                            , mH4 := true
                            , mState := HalState.ONE_CLIENT }
          let effs := [Effect.openHciCall
                      , Effect.linkToDeath cb
                      , Effect.watchFd env.openResult
                      , Effect.log "initialization complete"
                      , Effect.initializationComplete Status.SUCCESS]
          if env.deliverOk then
            { fatal := false, result := AStatus.ok, st := h2, effects := effs }
          else
            let anomaly := if h2.hasDied then []
              else [Effect.logError "Error sending init callback, but no death notification"]
            let c := hciClose h2
            if c.fatal then
              { c with effects := effs ++ anomaly ++ c.effects }
            else
              { fatal := false
              , result := AStatus.fromServiceSpecificError ErrorCode.STATUS_FAILED_TRANSACTION
              , st := c.st
              , effects := effs ++ anomaly ++ c.effects }

/-- BluetoothHci::send (lines 211-225): empty packet -> EX_ILLEGAL_ARGUMENT;
mH4 == nullptr -> EX_ILLEGAL_STATE; otherwise mH4->Send(type, v). -/
def hciSend (h : Hci) (type : PacketType) (v : List Nat) : Step :=
  if v.isEmpty then
    { fatal := false
    , result := AStatus.fromExceptionCode ExceptionCode.EX_ILLEGAL_ARGUMENT
    , st := h
    , effects := [Effect.logError "Packet is empty, no data was found to be sent"] }
  else if h.mH4 = false then
    { fatal := false
    , result := AStatus.fromExceptionCode ExceptionCode.EX_ILLEGAL_STATE
    , st := h
    , effects := [] }
  else
    { fatal := false, result := AStatus.ok, st := h
    , effects := [Effect.h4Send type v] }

/-- BluetoothHci::sendHciCommand (lines 191-194). -/
def sendHciCommand (h : Hci) (packet : List Nat) : Step :=
  hciSend h PacketType.COMMAND packet

/-- BluetoothHci::sendAclData (lines 196-199). -/
def sendAclData (h : Hci) (packet : List Nat) : Step :=
  hciSend h PacketType.ACL_DATA packet

/-- BluetoothHci::sendScoData (lines 201-204). -/
def sendScoData (h : Hci) (packet : List Nat) : Step :=
  hciSend h PacketType.SCO_DATA packet

/-- BluetoothHci::sendIsoData (lines 206-209). -/
def sendIsoData (h : Hci) (packet : List Nat) : Step :=
  hciSend h PacketType.ISO_DATA packet

/-- BluetoothDeathRecipient::UnlinkToDeath (lines 45-47):
LOG_ALWAYS_FATAL_IF(cb != mCb, "Unable to unlink mismatched pointers");
no other action — it neither unlinks the binder death recipient nor clears
any field. -/
def unlinkToDeath (h : Hci) (cb : Option Nat) : Step :=
  if cb ≠ h.recipientCb then
    { fatal := true, result := AStatus.ok, st := h, effects := [] }
  else
    { fatal := false, result := AStatus.ok, st := h, effects := [] }

/-- BluetoothDeathRecipient::serviceDied (lines 49-61), reached from the
binder death callback OnDeath.  `alive` is AIBinder_isAlive on the
registered callback's binder.  If mCb is set and the binder is not alive:
log, set has_died_ under mHasDiedMutex, then mHci->close().  Otherwise log
and return without touching anything. -/
def serviceDied (h : Hci) (alive : Bool) : Step :=
  if h.recipientCb ≠ none ∧ alive = false then
    let h1 := { h with hasDied := true }
    let c := hciClose h1
    { c with effects := Effect.logError "Bluetooth remote service has died" :: c.effects }
  else
    { fatal := false, result := AStatus.ok, st := h
    , effects := [Effect.logError "BluetoothDeathRecipient::serviceDied called but service not dead"] }

/-- OnDeath (lines 75-78): casts the cookie back to the death recipient and
calls serviceDied on it. -/
def onDeath (h : Hci) (alive : Bool) : Step :=
  serviceDied h alive

/-- Outcome of the H4 codec handing one fully assembled inbound frame to
the handler installed for its kind. -/
inductive RecvStep
  | delivered (e : Effect)
  | fatalRecv (msg : String)
deriving DecidableEq, Repr

/-- The inbound frame handlers BluetoothHci installs on the H4Protocol
codec (BluetoothHci.cpp lines 124-140): COMMAND ->
LOG_ALWAYS_FATAL("Unexpected command!"); ACL/SCO/EVENT/ISO -> the matching
IBluetoothHciCallbacks delivery. -/
def h4FrameCallback : PacketType → List Nat → RecvStep
  | PacketType.COMMAND, _ => RecvStep.fatalRecv "Unexpected command!"
  | PacketType.ACL_DATA, v => RecvStep.delivered (Effect.clientCallback PacketType.ACL_DATA v)
  | PacketType.SCO_DATA, v => RecvStep.delivered (Effect.clientCallback PacketType.SCO_DATA v)
  | PacketType.EVENT, v => RecvStep.delivered (Effect.clientCallback PacketType.EVENT v)
  | PacketType.ISO_DATA, v => RecvStep.delivered (Effect.clientCallback PacketType.ISO_DATA v)

/-- One externally invoked lifecycle operation on the object. -/
inductive Op
  | opInit (env : InitEnv)
  | opClose
deriving DecidableEq, Repr

/-- Run one lifecycle operation. -/
def runOp (h : Hci) : Op → Step
  | Op.opInit env => hciInit h env
  | Op.opClose => hciClose h

/-- Run a sequence of lifecycle operations from a state; none if a
LOG_ALWAYS_FATAL aborted the process along the way. -/
def runOps : Hci → List Op → Option Hci
  | h, [] => some h
  | h, op :: rest =>
      let s := runOp h op
      if s.fatal then none else runOps s.st rest

/-- The session/resource invariant observed between calls: the state is a
rest state (READY or ONE_CLIENT), and the codec and the open device exist
exactly in ONE_CLIENT. -/
def boundaryInv (h : Hci) : Prop :=
  (h.mState = HalState.READY ∨ h.mState = HalState.ONE_CLIENT)
  ∧ (h.mH4 = true ↔ h.mState = HalState.ONE_CLIENT)
  ∧ (h.deviceOpen = true ↔ h.mState = HalState.ONE_CLIENT)

/-- States reachable from a fresh object by lifecycle operations. -/
def Reachable (h : Hci) : Prop :=
  ∃ ops : List Op, runOps initialHci ops = some h

lemma boundaryInv_initial : boundaryInv initialHci := by
  refine ⟨Or.inl rfl, ?_, ?_⟩ <;> simp [initialHci]

lemma boundaryInv_step (h : Hci) (op : Op) (hin : boundaryInv h)
    (hnf : (runOp h op).fatal = false) : boundaryInv (runOp h op).st := by
  obtain ⟨hs, h4, hd⟩ := hin
  cases op with
  | opClose =>
      rcases hs with hs | hs <;> simp [runOp, hciClose, boundaryInv, hs, h4, hd]
  | opInit env =>
      rcases henv : env.cb with _ | cb
      · simp only [runOp, hciInit, henv]
        exact ⟨hs, h4, hd⟩
      · rcases hs with hs | hs
        · by_cases hopen : env.openResult < 0
          · simp [runOp, hciInit, boundaryInv, henv, hs, hopen, h4, hd,
              Bool.eq_false_iff, Ne, Bool.not_eq_true]
          · by_cases hlink : env.linkOk = false
            · exfalso
              simp [runOp, hciInit, henv, hs, hopen, hlink] at hnf
            · by_cases hdel : env.deliverOk = true
              · simp [runOp, hciInit, hciClose, boundaryInv, henv, hs, hopen, hlink, hdel]
              · simp [runOp, hciInit, hciClose, boundaryInv, henv, hs, hopen, hlink, hdel]
        · simp [runOp, hciInit, hciClose, boundaryInv, henv, hs]

lemma runOps_boundaryInv (ops : List Op) :
    ∀ h h' : Hci, boundaryInv h → runOps h ops = some h' → boundaryInv h' := by
  induction ops with
  | nil =>
      intro h h' hin he
      simp [runOps] at he
      exact he ▸ hin
  | cons op rest ih =>
      intro h h' hin he
      by_cases hf : (runOp h op).fatal = true
      · simp [runOps, hf] at he
      · simp [runOps, hf] at he
        exact ih _ _ (boundaryInv_step h op hin (by simpa using hf)) he

lemma reachable_boundaryInv (h : Hci) (hr : Reachable h) : boundaryInv h := by
  obtain ⟨ops, he⟩ := hr
  exact runOps_boundaryInv ops initialHci h boundaryInv_initial he

/-- A concrete environment for a fully successful session start, used by
concrete instantiations below. -/
def demoEnv : InitEnv :=
  { cb := some 1, openResult := 3, linkOk := true, deliverOk := true }

/-- The object state after one successful session start from a fresh
object: ONE_CLIENT with the codec and device present. -/
def activeDemo : Hci := (hciInit initialHci demoEnv).st

/-- C1: along every sequence of session-start/close operations, the codec
(mH4) and the open device handle exist exactly while the session is Active
(ONE_CLIENT): the machine never rests in ONE_CLIENT without a successfully
opened device, and close never leaves ONE_CLIENT without releasing the
device and dropping the codec — the device handle's lifetime is exactly
the Active interval. -/
theorem c1_device_codec_iff_active (h : Hci) (hr : Reachable h) :
    (h.mH4 = true ↔ h.mState = HalState.ONE_CLIENT)
    ∧ (h.deviceOpen = true ↔ h.mState = HalState.ONE_CLIENT) :=
  (reachable_boundaryInv h hr).2

/-- Witness for C1 at the state reached by one successful session start. -/
theorem c1_device_codec_iff_active_witness :
    (activeDemo.mH4 = true ↔ activeDemo.mState = HalState.ONE_CLIENT)
    ∧ (activeDemo.deviceOpen = true ↔ activeDemo.mState = HalState.ONE_CLIENT) :=
  c1_device_codec_iff_active activeDemo ⟨[Op.opInit demoEnv], by decide⟩

/-- C2: a session-start call in a reachable non-READY state performs a
best-effort teardown (the close effects come before the completion
callback), reports ALREADY_INITIALIZED through the completion callback,
returns ok, and leaves no session live (READY, no codec, no device) — in
particular no second session is created. -/
theorem c2_init_not_idle (h : Hci) (env : InitEnv) (cb : Nat)
    (hr : Reachable h) (hcb : env.cb = some cb)
    (hst : h.mState ≠ HalState.READY) :
    (hciInit h env).fatal = false
    ∧ (hciInit h env).result = AStatus.ok
    ∧ (hciInit h env).effects =
        [Effect.logError "Unexpected State", Effect.stopWatching, Effect.closeHciCall,
         Effect.initializationComplete Status.ALREADY_INITIALIZED]
    ∧ (hciInit h env).st.mState = HalState.READY
    ∧ (hciInit h env).st.mH4 = false
    ∧ (hciInit h env).st.deviceOpen = false := by
  have hb := reachable_boundaryInv h hr
  have hone : h.mState = HalState.ONE_CLIENT := by
    rcases hb.1 with hx | hx
    · exact absurd hx hst
    · exact hx
  simp [hciInit, hciClose, hcb, hone]

/-- Witness for C2: a second session start while Active. -/
theorem c2_init_not_idle_witness :
    (hciInit activeDemo ⟨some 2, 5, true, true⟩).fatal = false
    ∧ (hciInit activeDemo ⟨some 2, 5, true, true⟩).result = AStatus.ok
    ∧ (hciInit activeDemo ⟨some 2, 5, true, true⟩).effects =
        [Effect.logError "Unexpected State", Effect.stopWatching, Effect.closeHciCall,
         Effect.initializationComplete Status.ALREADY_INITIALIZED]
    ∧ (hciInit activeDemo ⟨some 2, 5, true, true⟩).st.mState = HalState.READY
    ∧ (hciInit activeDemo ⟨some 2, 5, true, true⟩).st.mH4 = false
    ∧ (hciInit activeDemo ⟨some 2, 5, true, true⟩).st.deviceOpen = false :=
  c2_init_not_idle activeDemo ⟨some 2, 5, true, true⟩ 2
    ⟨[Op.opInit demoEnv], by decide⟩ rfl (by decide)

/-- C3: close in a non-Active state: from READY or CLOSING it returns ok
and changes no state (only the "Already closed" log); from INITIALIZING it
is a fatal invariant violation (LOG_ALWAYS_FATAL) rather than a
recoverable error. -/
theorem c3_close_not_active (h : Hci) :
    ((h.mState = HalState.READY ∨ h.mState = HalState.CLOSING) →
        hciClose h = { fatal := false, result := AStatus.ok, st := h
                     , effects := [Effect.log "Already closed"] })
    ∧ (h.mState = HalState.INITIALIZING →
        (hciClose h).fatal = true ∧ (hciClose h).st = h
        ∧ (hciClose h).effects = []) := by
  constructor
  · rintro (hs | hs) <;> simp [hciClose, hs]
  · intro hs
    simp [hciClose, hs]

/-- Witness for C3 at a fresh READY object and an INITIALIZING state. -/
theorem c3_close_not_active_witness :
    hciClose initialHci = { fatal := false, result := AStatus.ok, st := initialHci
                          , effects := [Effect.log "Already closed"] }
    ∧ ((hciClose { initialHci with mState := HalState.INITIALIZING }).fatal = true
       ∧ (hciClose { initialHci with mState := HalState.INITIALIZING }).st
           = { initialHci with mState := HalState.INITIALIZING }
       ∧ (hciClose { initialHci with mState := HalState.INITIALIZING }).effects = []) :=
  ⟨(c3_close_not_active initialHci).1 (Or.inl rfl),
   (c3_close_not_active { initialHci with mState := HalState.INITIALIZING }).2 rfl⟩

/-- C4: sending an empty payload, from any state and for every packet kind
(all four entry points), fails with EX_ILLEGAL_ARGUMENT, performs no write
to the device (no h4Send effect), and changes no state. -/
theorem c4_send_empty (h : Hci) (t : PacketType) :
    hciSend h t [] = { fatal := false
                     , result := AStatus.fromExceptionCode ExceptionCode.EX_ILLEGAL_ARGUMENT
                     , st := h
                     , effects := [Effect.logError "Packet is empty, no data was found to be sent"] }
    ∧ sendHciCommand h [] = hciSend h PacketType.COMMAND []
    ∧ sendAclData h [] = hciSend h PacketType.ACL_DATA []
    ∧ sendScoData h [] = hciSend h PacketType.SCO_DATA []
    ∧ sendIsoData h [] = hciSend h PacketType.ISO_DATA [] := by
  refine ⟨?_, rfl, rfl, rfl, rfl⟩
  simp [hciSend]

/-- C5: sending a non-empty payload while no codec exists (mH4 null, the
session is not Active) fails with EX_ILLEGAL_STATE, performs no write and
changes no state. -/
theorem c5_send_not_active (h : Hci) (t : PacketType) (v : List Nat)
    (hv : v ≠ []) (hh : h.mH4 = false) :
    hciSend h t v = { fatal := false
                    , result := AStatus.fromExceptionCode ExceptionCode.EX_ILLEGAL_STATE
                    , st := h, effects := [] } := by
  simp [hciSend, hv, hh]

/-- Witness for C5 on a fresh object and a one-byte ACL payload. -/
theorem c5_send_not_active_witness :
    hciSend initialHci PacketType.ACL_DATA [1] =
      { fatal := false
      , result := AStatus.fromExceptionCode ExceptionCode.EX_ILLEGAL_STATE
      , st := initialHci, effects := [] } :=
  c5_send_not_active initialHci PacketType.ACL_DATA [1] (by decide) rfl

/-- C6: a session start from READY whose device acquisition fails
(openHci returns a negative descriptor) reports UNABLE_TO_OPEN_INTERFACE
through the completion callback, returns ok (the process is not
terminated), and the state returns to READY with codec and device
unchanged (absent). -/
theorem c6_init_open_fail (h : Hci) (env : InitEnv) (cb : Nat)
    (hcb : env.cb = some cb) (hst : h.mState = HalState.READY)
    (hopen : env.openResult < 0) :
    (hciInit h env).fatal = false
    ∧ (hciInit h env).result = AStatus.ok
    ∧ (hciInit h env).st.mState = HalState.READY
    ∧ (hciInit h env).effects =
        [Effect.openHciCall, Effect.log "Unable to open Linux interface.",
         Effect.initializationComplete Status.UNABLE_TO_OPEN_INTERFACE]
    ∧ (hciInit h env).st.mH4 = h.mH4
    ∧ (hciInit h env).st.deviceOpen = h.deviceOpen := by
  simp [hciInit, hcb, hst, hopen]

/-- Witness for C6 on a fresh object with openHci returning -1. -/
theorem c6_init_open_fail_witness :
    (hciInit initialHci ⟨some 1, -1, true, true⟩).fatal = false
    ∧ (hciInit initialHci ⟨some 1, -1, true, true⟩).result = AStatus.ok
    ∧ (hciInit initialHci ⟨some 1, -1, true, true⟩).st.mState = HalState.READY
    ∧ (hciInit initialHci ⟨some 1, -1, true, true⟩).effects =
        [Effect.openHciCall, Effect.log "Unable to open Linux interface.",
         Effect.initializationComplete Status.UNABLE_TO_OPEN_INTERFACE]
    ∧ (hciInit initialHci ⟨some 1, -1, true, true⟩).st.mH4 = initialHci.mH4
    ∧ (hciInit initialHci ⟨some 1, -1, true, true⟩).st.deviceOpen = initialHci.deviceOpen :=
  c6_init_open_fail initialHci ⟨some 1, -1, true, true⟩ 1 rfl rfl (by decide)

/-- C7: the inbound handler the session installs for frames of kind
COMMAND is LOG_ALWAYS_FATAL("Unexpected command!"): every assembled
inbound COMMAND frame is an unrecoverable fatal protocol violation and is
never a client-callback delivery. -/
theorem c7_inbound_command_fatal (v : List Nat) :
    h4FrameCallback PacketType.COMMAND v = RecvStep.fatalRecv "Unexpected command!" :=
  rfl

/-- C8 counterexample: closing an Active session completes the teardown
(state READY) yet does not release the liveness registration: the death
recipient still records callback 1 as linked afterwards, and the close
effects contain no unlink action — BluetoothHci::close never invokes
BluetoothDeathRecipient::UnlinkToDeath, refuting "released exactly once,
during teardown (close)". -/
theorem c8_close_keeps_link_counterexample :
    (hciClose activeDemo).fatal = false
    ∧ (hciClose activeDemo).st.mState = HalState.READY
    ∧ (hciClose activeDemo).st.recipientCb = some 1
    ∧ (hciClose activeDemo).effects = [Effect.stopWatching, Effect.closeHciCall] := by
  decide

/-- C8 (amended): UnlinkToDeath compares the unregistration target against
the registered callback identity and terminates the process fatally on a
mismatch (on a match it succeeds and performs no other action); however,
close never invokes this release — the death-recipient registration
survives teardown unchanged. -/
theorem c8_unlink_identity_check (h : Hci) (cb : Option Nat) :
    (cb ≠ h.recipientCb → (unlinkToDeath h cb).fatal = true)
    ∧ (cb = h.recipientCb →
        unlinkToDeath h cb = { fatal := false, result := AStatus.ok, st := h, effects := [] })
    ∧ (hciClose h).st.recipientCb = h.recipientCb := by
  refine ⟨?_, ?_, ?_⟩
  · intro hne
    simp [unlinkToDeath, hne]
  · intro he
    simp [unlinkToDeath, he]
  · by_cases hs : h.mState = HalState.ONE_CLIENT <;>
      by_cases hi : h.mState = HalState.INITIALIZING <;>
        simp [hciClose, hs, hi]

/-- Witness for C8 (amended): mismatched target is fatal, matching target
succeeds without action, and close leaves the registration in place. -/
theorem c8_unlink_identity_check_witness :
    (unlinkToDeath activeDemo (some 2)).fatal = true
    ∧ unlinkToDeath activeDemo (some 1) =
        { fatal := false, result := AStatus.ok, st := activeDemo, effects := [] }
    ∧ (hciClose activeDemo).st.recipientCb = activeDemo.recipientCb :=
  ⟨(c8_unlink_identity_check activeDemo (some 2)).1 (by decide),
   (c8_unlink_identity_check activeDemo (some 1)).2.1 (by decide),
   (c8_unlink_identity_check activeDemo (some 1)).2.2⟩

/-- C9: a death notification (binder no longer alive) arriving while the
session is Active records the has-died flag and then requests close, so
the session ends in READY with codec and device released, without any
close call from the original caller. -/
theorem c9_service_death_closes (h : Hci) (c : Nat)
    (hst : h.mState = HalState.ONE_CLIENT) (hcb : h.recipientCb = some c) :
    (serviceDied h false).fatal = false
    ∧ (serviceDied h false).st.hasDied = true
    ∧ (serviceDied h false).st.mState = HalState.READY
    ∧ (serviceDied h false).st.mH4 = false
    ∧ (serviceDied h false).st.deviceOpen = false
    ∧ Effect.stopWatching ∈ (serviceDied h false).effects
    ∧ Effect.closeHciCall ∈ (serviceDied h false).effects := by
  simp [serviceDied, hciClose, hcb, hst]

/-- Witness for C9 on the Active demo session. -/
theorem c9_service_death_closes_witness :
    (serviceDied activeDemo false).fatal = false
    ∧ (serviceDied activeDemo false).st.hasDied = true
    ∧ (serviceDied activeDemo false).st.mState = HalState.READY
    ∧ (serviceDied activeDemo false).st.mH4 = false
    ∧ (serviceDied activeDemo false).st.deviceOpen = false
    ∧ Effect.stopWatching ∈ (serviceDied activeDemo false).effects
    ∧ Effect.closeHciCall ∈ (serviceDied activeDemo false).effects :=
  c9_service_death_closes activeDemo 1 (by decide) (by decide)

/-- C10: a session start from READY where the device opens, the death link
succeeds, the success completion callback fails to deliver, and the
has-died flag is not set: the anomaly is logged, the session is torn down
(close effects present, state back to READY with no codec or device), and
the call returns STATUS_FAILED_TRANSACTION instead of ok. -/
theorem c10_deliver_fail_teardown (h : Hci) (env : InitEnv) (cb : Nat)
    (hst : h.mState = HalState.READY) (hcb : env.cb = some cb)
    (hopen : ¬ env.openResult < 0) (hlink : env.linkOk = true)
    (hdel : env.deliverOk = false) (hdied : h.hasDied = false) :
    (hciInit h env).fatal = false
    ∧ (hciInit h env).result
        = AStatus.fromServiceSpecificError ErrorCode.STATUS_FAILED_TRANSACTION
    ∧ Effect.logError "Error sending init callback, but no death notification"
        ∈ (hciInit h env).effects
    ∧ Effect.stopWatching ∈ (hciInit h env).effects
    ∧ Effect.closeHciCall ∈ (hciInit h env).effects
    ∧ (hciInit h env).st.mState = HalState.READY
    ∧ (hciInit h env).st.mH4 = false
    ∧ (hciInit h env).st.deviceOpen = false := by
  simp [hciInit, hciClose, hcb, hst, hopen, hlink, hdel, hdied]

/-- Witness for C10 on a fresh object with fd 4 and failed delivery. -/
theorem c10_deliver_fail_teardown_witness :
    (hciInit initialHci ⟨some 1, 4, true, false⟩).fatal = false
    ∧ (hciInit initialHci ⟨some 1, 4, true, false⟩).result
        = AStatus.fromServiceSpecificError ErrorCode.STATUS_FAILED_TRANSACTION
    ∧ Effect.logError "Error sending init callback, but no death notification"
        ∈ (hciInit initialHci ⟨some 1, 4, true, false⟩).effects
    ∧ Effect.stopWatching ∈ (hciInit initialHci ⟨some 1, 4, true, false⟩).effects
    ∧ Effect.closeHciCall ∈ (hciInit initialHci ⟨some 1, 4, true, false⟩).effects
    ∧ (hciInit initialHci ⟨some 1, 4, true, false⟩).st.mState = HalState.READY
    ∧ (hciInit initialHci ⟨some 1, 4, true, false⟩).st.mH4 = false
    ∧ (hciInit initialHci ⟨some 1, 4, true, false⟩).st.deviceOpen = false :=
  c10_deliver_fail_teardown initialHci ⟨some 1, 4, true, false⟩ 1
    rfl rfl (by decide) rfl rfl rfl

end RpiBluetooth
